import Mathlib

/-!
Shallow embedding of the Octofit demo-data lifecycle
(`octofit_tracker/management/commands/populate_db.py` and the standalone
`populate_db.py` script).

Modelling conventions:
* The persistence layer is a `Store` of five record lists plus the two
  many-to-many link tables (Team↔User and Workout↔User) and a single
  auto-increment primary-key counter `nextId` (deleting rows does not reset
  the counter, as with database auto-increment columns).
* `calories_burned` is written by the code as `float(150 + i*30 + j*20)`,
  always a whole number; the `int(...)` truncation applied when aggregating
  is therefore exact, and we model the field as `Int`.
* Timestamps are modelled in whole days: `date := now - (i*2 + j)` embeds
  `base_date - timedelta(days=i*2 + j)`.
* `transaction.atomic()` is the persistence layer's contract: on an
  exception escaping the block every write inside it is rolled back.  We
  embed it in `storeAfterReset`, which returns the pre-call store whenever
  the deletion sequence raised.
* Failure injection for the atomicity tests is a `FailSpec` of flags, one
  per deletion statement of `reset_data`; the two `through`-table bulk
  deletions fall back to per-instance clearing when they fail, as in the
  source (per-instance failures are swallowed there with `pass`).
-/

namespace Octofit

structure User where
  id : Nat
  username : String
  email : String
  first_name : String
  last_name : String
  deriving Repr, DecidableEq

structure Team where
  id : Nat
  name : String
  deriving Repr, DecidableEq

structure Workout where
  id : Nat
  name : String
  description : String
  deriving Repr, DecidableEq

structure Activity where
  id : Nat
  user : Nat
  activity_type : String
  duration : Nat
  calories_burned : Int
  date : Int
  deriving Repr, DecidableEq

structure LBEntry where
  team : Nat
  total_points : Int
  deriving Repr, DecidableEq

/-- A link row of a many-to-many through table: (left endpoint id, user id). -/
abbrev Link := Nat × Nat

structure Store where
  users : List User
  teams : List Team
  teamLinks : List Link
  workouts : List Workout
  workoutLinks : List Link
  activities : List Activity
  leaderboards : List LBEntry
  nextId : Nat
  deriving Repr, DecidableEq

def emptyStore : Store :=
  { users := [], teams := [], teamLinks := [], workouts := [], workoutLinks := []
    activities := [], leaderboards := [], nextId := 0 }

/-- The fixed demo account tuples of `create_demo_data`. -/
def demo_users : List (String × String × String × String) :=
  [("alice", "alice@example.com", "Alice", "Silva"),
   ("bob", "bob@example.com", "Bob", "Souza"),
   ("carol", "carol@example.com", "Carol", "Lima"),
   ("dave", "dave@example.com", "Dave", "Oliveira")]

/-- Embeds `team.members.all()`: the user ids of the link rows of one team. -/
def memberIds (links : List Link) (tid : Nat) : List Nat :=
  (links.filter (fun l => l.1 == tid)).map (fun l => l.2)

/-- Embeds `Activity.objects.filter(user=m).aggregate(Sum('calories_burned'))`,
with the null sum coalesced to 0 (`or 0`); `int(...)` is exact on the
whole-valued calories. -/
def userCalories (acts : List Activity) (m : Nat) : Int :=
  ((acts.filter (fun a => a.user == m)).map (fun a => a.calories_burned)).sum

/-- The leaderboard loop body of `create_demo_data`:
`total_points = 0; for m in members: total_points += int(... or 0)`. -/
def codePoints (links : List Link) (acts : List Activity) (tid : Nat) : Int :=
  (memberIds links tid).foldl (fun acc m => acc + userCalories acts m) 0

/-- Embeds `create_demo_data` (identical in the management command and the script):
four users, two teams of two, three workouts with suggestions, 3 activities
per user by the fixed formula, then one Leaderboard entry per team currently
in the store. -/
def create_demo_data (now : Int) (s : Store) : Store :=
  let n := s.nextId
  let users := demo_users.enum.map (fun p =>
    { id := n + p.1, username := p.2.1, email := p.2.2.1,
      first_name := p.2.2.2.1, last_name := p.2.2.2.2 : User })
  let team1 : Team := { id := n + 4, name := "Team Alpha" }
  let team2 : Team := { id := n + 5, name := "Team Beta" }
  let tLinks : List Link :=
    [(team1.id, n + 0), (team1.id, n + 1), (team2.id, n + 2), (team2.id, n + 3)]
  let w1 : Workout := { id := n + 6, name := "Quick HIIT",
                        description := "20-minute high intensity interval training" }
  let w2 : Workout := { id := n + 7, name := "Morning Yoga",
                        description := "30-minute mobility and stretch flow" }
  let w3 : Workout := { id := n + 8, name := "Long Run",
                        description := "60-minute steady state run" }
  let wLinks : List Link :=
    [(w1.id, n + 0), (w1.id, n + 2), (w2.id, n + 1), (w2.id, n + 3),
     (w3.id, n + 0), (w3.id, n + 1), (w3.id, n + 2), (w3.id, n + 3)]
  let acts := (List.range 4).flatMap (fun i => (List.range 3).map (fun j =>
    { id := n + 9 + 3 * i + j, user := n + i,
      activity_type := if j % 2 == 0 then "run" else "bike",
      duration := 20 + i * 10 + j * 5,
      calories_burned := (150 + i * 30 + j * 20 : Int),
      date := now - (i * 2 + j : Nat) : Activity }))
  let s1 : Store :=
    { users := s.users ++ users
      teams := s.teams ++ [team1, team2]
      teamLinks := s.teamLinks ++ tLinks
      workouts := s.workouts ++ [w1, w2, w3]
      workoutLinks := s.workoutLinks ++ wLinks
      activities := s.activities ++ acts
      leaderboards := s.leaderboards
      nextId := n + 21 }
  let lbs := s1.teams.map (fun t =>
    { team := t.id, total_points := codePoints s1.teamLinks s1.activities t.id : LBEntry })
  { s1 with leaderboards := s1.leaderboards ++ lbs }

/-! ## `reset_data` -/

/-- Embeds `Activity.objects.all().delete()`. -/
def delActivities (s : Store) : Store := { s with activities := [] }

/-- Embeds `through_w.objects.all().delete()` (bulk delete of the Workout↔User
through table) -/
def delWorkoutLinks (s : Store) : Store := { s with workoutLinks := [] }

/-- Fallback: `for w in Workout.objects.all(): w.suggested_for.clear()` —
clears the link rows of each workout that exists; a link row whose workout
id matches no stored workout is not touched by this path. -/
def fallbackClearWorkoutLinks (s : Store) : Store :=
  { s with workoutLinks :=
      s.workoutLinks.filter (fun l => !(s.workouts.any (fun w => w.id == l.1))) }

/-- Embeds `Workout.objects.all().delete()`. -/
def delWorkouts (s : Store) : Store := { s with workouts := [] }

/-- Embeds `Leaderboard.objects.all().delete()`. -/
def delLeaderboards (s : Store) : Store := { s with leaderboards := [] }

/-- Embeds `through_t.objects.all().delete()` (bulk delete of the Team↔User
through table) -/
def delTeamLinks (s : Store) : Store := { s with teamLinks := [] }

/-- Fallback: `for t in Team.objects.all(): t.members.clear()`. -/
def fallbackClearTeamLinks (s : Store) : Store :=
  { s with teamLinks :=
      s.teamLinks.filter (fun l => !(s.teams.any (fun t => t.id == l.1))) }

/-- Embeds `Team.objects.all().delete()`. -/
def delTeams (s : Store) : Store := { s with teams := [] }

/-- Embeds `User.objects.all().delete()`. -/
def delUsers (s : Store) : Store := { s with users := [] }

/-- The deletion statements of `reset_data` in source order. -/
def resetSteps : List (Store → Store) :=
  [delActivities, delWorkoutLinks, delWorkouts, delLeaderboards,
   delTeamLinks, delTeams, delUsers]

/-- The store after the first `n` deletion statements of `reset_data`
(the intermediate states of the sequence, bulk path). -/
def resetUpTo (s : Store) (n : Nat) : Store :=
  (resetSteps.take n).foldl (fun st f => f st) s

/-- Failure injection for `reset_data`: one flag per deletion statement.
A `failThrough*` flag makes the bulk through-table delete raise, which the
source catches and answers with the per-instance fallback (whose own
per-record failures are swallowed with `pass`); the other five flags make
the corresponding delete raise out of the `transaction.atomic()` block with
message `cause`. -/
structure FailSpec where
  failActivity : Bool
  failThroughW : Bool
  failWorkout : Bool
  failLeaderboard : Bool
  failThroughT : Bool
  failTeam : Bool
  failUser : Bool
  cause : String
  deriving Repr, DecidableEq

/-- No injected failures: the behaviour of the code on a real store. -/
def noFail : FailSpec :=
  { failActivity := false, failThroughW := false, failWorkout := false
    failLeaderboard := false, failThroughT := false, failTeam := false
    failUser := false, cause := "" }

/-- The body of the `transaction.atomic()` block of `reset_data`: the
deletion statements in source order, raising where a failure is injected,
with the try/except fallback around each through-table bulk delete. -/
def resetAttempt (f : FailSpec) (s : Store) : Except String Store := do
  if f.failActivity then throw f.cause
  let s1 := delActivities s
  let s2 := if f.failThroughW then fallbackClearWorkoutLinks s1 else delWorkoutLinks s1
  if f.failWorkout then throw f.cause
  let s3 := delWorkouts s2
  if f.failLeaderboard then throw f.cause
  let s4 := delLeaderboards s3
  let s5 := if f.failThroughT then fallbackClearTeamLinks s4 else delTeamLinks s4
  if f.failTeam then throw f.cause
  let s6 := delTeams s5
  if f.failUser then throw f.cause
  pure (delUsers s6)

/-- Embeds `reset_data`: runs the atomic block; the `except` clause logs and
re-raises (`raise`), so the error escapes with its original cause. -/
def reset_data (f : FailSpec) (s : Store) : Except String Store :=
  resetAttempt f s

/-- The store a caller observes after `reset_data` returns or raises:
`transaction.atomic()` commits the writes on normal exit and rolls every
write back when an exception escapes the block (persistence-layer
contract). -/
def storeAfterReset (f : FailSpec) (s : Store) : Store :=
  match resetAttempt f s with
  | .ok s2 => s2
  | .error _ => s

/-- Embeds `Command.handle` of the management command: `--force` resets then
populates; otherwise an existing user makes it warn and return
successfully without touching the store. -/
def handle (force : Bool) (f : FailSpec) (now : Int) (s : Store) :
    Except String Store :=
  if force then
    match reset_data f s with
    | .error e => .error e
    | .ok s2 => .ok (create_demo_data now s2)
  else
    if !s.users.isEmpty then
      .ok s
    else
      .ok (create_demo_data now s)

end Octofit

/-! ## The standalone script `populate_db.py`

The script operates on the same models; its `reset_data(models)`,
`create_demo_data(models)` and `main()` are embedded separately from the
management command so that the equivalence of the two entry points is a
theorem, not an assumption. -/

namespace OctofitScript

open Octofit (Store User Team Workout Activity LBEntry Link FailSpec
  demo_users memberIds)

/-- Embeds the script's per-member aggregate
`int(models.Activity.objects.filter(user=m).aggregate(...)['calories_burned__sum'] or 0)`. -/
def userCalories (acts : List Activity) (m : Nat) : Int :=
  ((acts.filter (fun a => a.user == m)).map (fun a => a.calories_burned)).sum

/-- The script's leaderboard accumulation loop. -/
def codePoints (links : List Link) (acts : List Activity) (tid : Nat) : Int :=
  (memberIds links tid).foldl (fun acc m => acc + userCalories acts m) 0

/-- Embeds `create_demo_data(models)` of the standalone script. -/
def create_demo_data (now : Int) (s : Store) : Store :=
  let n := s.nextId
  let users := demo_users.enum.map (fun p =>
    { id := n + p.1, username := p.2.1, email := p.2.2.1,
      first_name := p.2.2.2.1, last_name := p.2.2.2.2 : User })
  let team1 : Team := { id := n + 4, name := "Team Alpha" }
  let team2 : Team := { id := n + 5, name := "Team Beta" }
  let tLinks : List Link :=
    [(team1.id, n + 0), (team1.id, n + 1), (team2.id, n + 2), (team2.id, n + 3)]
  let w1 : Workout := { id := n + 6, name := "Quick HIIT",
                        description := "20-minute high intensity interval training" }
  let w2 : Workout := { id := n + 7, name := "Morning Yoga",
                        description := "30-minute mobility and stretch flow" }
  let w3 : Workout := { id := n + 8, name := "Long Run",
                        description := "60-minute steady state run" }
  let wLinks : List Link :=
    [(w1.id, n + 0), (w1.id, n + 2), (w2.id, n + 1), (w2.id, n + 3),
     (w3.id, n + 0), (w3.id, n + 1), (w3.id, n + 2), (w3.id, n + 3)]
  let acts := (List.range 4).flatMap (fun i => (List.range 3).map (fun j =>
    { id := n + 9 + 3 * i + j, user := n + i,
      activity_type := if j % 2 == 0 then "run" else "bike",
      duration := 20 + i * 10 + j * 5,
      calories_burned := (150 + i * 30 + j * 20 : Int),
      date := now - (i * 2 + j : Nat) : Activity }))
  let s1 : Store :=
    { users := s.users ++ users
      teams := s.teams ++ [team1, team2]
      teamLinks := s.teamLinks ++ tLinks
      workouts := s.workouts ++ [w1, w2, w3]
      workoutLinks := s.workoutLinks ++ wLinks
      activities := s.activities ++ acts
      leaderboards := s.leaderboards
      nextId := n + 21 }
  let lbs := s1.teams.map (fun t =>
    { team := t.id, total_points := codePoints s1.teamLinks s1.activities t.id : LBEntry })
  { s1 with leaderboards := s1.leaderboards ++ lbs }

/-- Embeds `reset_data(models)` of the standalone script: the same atomic deletion
sequence (the script prints a traceback before re-raising; the error still
escapes with its cause). -/
def reset_data (f : FailSpec) (s : Store) : Except String Store := do
  if f.failActivity then throw f.cause
  let s1 := Octofit.delActivities s
  let s2 := if f.failThroughW then Octofit.fallbackClearWorkoutLinks s1
            else Octofit.delWorkoutLinks s1
  if f.failWorkout then throw f.cause
  let s3 := Octofit.delWorkouts s2
  if f.failLeaderboard then throw f.cause
  let s4 := Octofit.delLeaderboards s3
  let s5 := if f.failThroughT then Octofit.fallbackClearTeamLinks s4
            else Octofit.delTeamLinks s4
  if f.failTeam then throw f.cause
  let s6 := Octofit.delTeams s5
  if f.failUser then throw f.cause
  pure (Octofit.delUsers s6)

/-- Embeds `main()` of the standalone script, after argument parsing and Django
setup: the same force / skip-on-existing-users control flow as the
management command. -/
def main (force : Bool) (f : FailSpec) (now : Int) (s : Store) :
    Except String Store :=
  if force then
    match reset_data f s with
    | .error e => .error e
    | .ok s2 => .ok (create_demo_data now s2)
  else
    if !s.users.isEmpty then
      .ok s
    else
      .ok (create_demo_data now s)

end OctofitScript

namespace Octofit

/-! ## Spec-side definitions

These follow the specification's words, to be compared with the embedded
code. -/

/-- Spec's aggregate rule: "`total_points` = sum of `calories_burned` over
all Activities owned by any current member of that Team, truncated to an
integer" (the truncation is exact on the whole-valued calories the demo
writes, so it is the identity in this model). -/
def specPoints (links : List Link) (acts : List Activity) (tid : Nat) : Int :=
  ((acts.filter (fun a => decide (a.user ∈ memberIds links tid))).map
    (fun a => a.calories_burned)).sum

/-- No remaining record references a deleted one: every link row's two
endpoints exist, every Activity's owner exists, every Leaderboard entry's
team exists. -/
def noDangling (s : Store) : Prop :=
  (∀ l ∈ s.teamLinks, (∃ t ∈ s.teams, t.id = l.1) ∧ ∃ u ∈ s.users, u.id = l.2) ∧
  (∀ l ∈ s.workoutLinks, (∃ w ∈ s.workouts, w.id = l.1) ∧ ∃ u ∈ s.users, u.id = l.2) ∧
  (∀ a ∈ s.activities, ∃ u ∈ s.users, u.id = a.user) ∧
  (∀ lb ∈ s.leaderboards, ∃ t ∈ s.teams, t.id = lb.team)

instance (s : Store) : Decidable (noDangling s) := by
  unfold noDangling; infer_instance

/-- The observable record counts of a store: users, teams, workouts,
activities, leaderboards, team links, workout links. -/
def counts (s : Store) : Nat × Nat × Nat × Nat × Nat × Nat × Nat :=
  (s.users.length, s.teams.length, s.workouts.length, s.activities.length,
   s.leaderboards.length, s.teamLinks.length, s.workoutLinks.length)

/-- The Leaderboard totals of a store, in entry order. -/
def lbTotals (s : Store) : List Int := s.leaderboards.map (fun lb => lb.total_points)

/-- One `--force` pass: `reset_data` then `create_demo_data`. -/
def forcePass (now : Int) (s : Store) : Store :=
  create_demo_data now (storeAfterReset noFail s)

/-- A store with no records whose auto-increment counter stands at `n`
(what `reset_data` leaves behind: deletion does not rewind the counter). -/
def emptiedStore (n : Nat) : Store :=
  { users := [], teams := [], teamLinks := [], workouts := [], workoutLinks := []
    activities := [], leaderboards := [], nextId := n }

/-! ## Helper lemmas -/

theorem foldl_add_eq (g : Nat → Int) (ms : List Nat) (c : Int) :
    ms.foldl (fun acc m => acc + g m) c = c + (ms.map g).sum := by
  induction ms generalizing c with
  | nil => simp
  | cons m rest ih => simp [ih, add_assoc]

theorem codePoints_eq_sum (links : List Link) (acts : List Activity) (tid : Nat) :
    codePoints links acts tid = ((memberIds links tid).map (userCalories acts)).sum := by
  simpa using foldl_add_eq (userCalories acts) (memberIds links tid) 0

/-! ## Claims -/

/-- C1: every Leaderboard entry persisted by `populate()` on the empty
store carries `total_points` equal to the (exactly truncated) sum of
`calories_burned` over the Activities owned by the entry's team's current
members; under the fixed demo formula the totals are the deterministic
closed-form values 1110 = Σ_{i∈{0,1}} (510 + 90·i) and
1470 = Σ_{i∈{2,3}} (510 + 90·i); and the aggregation yields 0 for a team
with no members or whose members own no activities. -/
theorem c1_leaderboard_points_correct (now : Int) :
    ((create_demo_data now emptyStore).leaderboards.map (fun lb => lb.total_points) =
      (create_demo_data now emptyStore).leaderboards.map (fun lb =>
        specPoints (create_demo_data now emptyStore).teamLinks
          (create_demo_data now emptyStore).activities lb.team))
    ∧ (create_demo_data now emptyStore).leaderboards.map (fun lb => lb.total_points)
        = [510 + 90 * 0 + (510 + 90 * 1), 510 + 90 * 2 + (510 + 90 * 3)]
    ∧ (∀ links acts tid, memberIds links tid = [] → codePoints links acts tid = 0)
    ∧ (∀ links tid, codePoints links [] tid = 0) := by
  refine ⟨rfl, rfl, ?_, ?_⟩
  · intro links acts tid h
    simp [codePoints, h]
  · intro links tid
    rw [codePoints_eq_sum]
    induction memberIds links tid with
    | nil => rfl
    | cons m rest ih => simpa [userCalories] using ih

/-- C5: `populate()` on an empty store creates exactly 4 Accounts,
2 Teams, 3 Workouts, 12 Activities — 3 per Account — and 2 Leaderboard
entries. -/
theorem c5_populate_counts (now : Int) :
    (create_demo_data now emptyStore).users.length = 4 ∧
    (create_demo_data now emptyStore).teams.length = 2 ∧
    (create_demo_data now emptyStore).workouts.length = 3 ∧
    (create_demo_data now emptyStore).activities.length = 12 ∧
    (create_demo_data now emptyStore).leaderboards.length = 2 ∧
    ∀ u ∈ (create_demo_data now emptyStore).users,
      ((create_demo_data now emptyStore).activities.filter
        (fun a => a.user == u.id)).length = 3 := by
  refine ⟨rfl, rfl, rfl, rfl, rfl, ?_⟩
  intro u hu
  fin_cases hu <;> rfl

/-- Witness for C5: the third demo account owns exactly 3 activities. -/
theorem c5_populate_counts_witness :
    ((create_demo_data 0 emptyStore).activities.filter
      (fun a => a.user == 2)).length = 3 :=
  (c5_populate_counts 0).2.2.2.2.2
    ⟨2, "carol", "carol@example.com", "Carol", "Lima"⟩ (by decide)

/-- The 12 demo activities on the empty store, written out. -/
theorem activities_explicit (now : Int) :
    (create_demo_data now emptyStore).activities =
      [⟨9, 0, "run", 20, 150, now - 0⟩, ⟨10, 0, "bike", 25, 170, now - 1⟩,
       ⟨11, 0, "run", 30, 190, now - 2⟩,
       ⟨12, 1, "run", 30, 180, now - 2⟩, ⟨13, 1, "bike", 35, 200, now - 3⟩,
       ⟨14, 1, "run", 40, 220, now - 4⟩,
       ⟨15, 2, "run", 40, 210, now - 4⟩, ⟨16, 2, "bike", 45, 230, now - 5⟩,
       ⟨17, 2, "run", 50, 250, now - 6⟩,
       ⟨18, 3, "run", 50, 240, now - 6⟩, ⟨19, 3, "bike", 55, 260, now - 7⟩,
       ⟨20, 3, "run", 60, 280, now - 8⟩] := by
  norm_num [create_demo_data, emptyStore, List.range_succ]

/-- C6: the Activity created for Account index `i` and activity index `j`
has kind "run" for even `j` and "bike" for odd `j`, duration
20 + 10·i + 5·j, calories 150 + 30·i + 20·j, and timestamp `now` minus
(2·i + j) days. -/
theorem c6_activity_fields (now : Int) (i j : Nat) (hi : i < 4) (hj : j < 3) :
    (create_demo_data now emptyStore).activities[3 * i + j]? =
      some { id := 9 + 3 * i + j, user := i,
             activity_type := if j % 2 = 0 then "run" else "bike",
             duration := 20 + 10 * i + 5 * j,
             calories_burned := 150 + 30 * i + 20 * j,
             date := now - (2 * i + j : Nat) } := by
  rw [activities_explicit]
  interval_cases i <;> interval_cases j <;> norm_num

/-- Witness for C6 at i = 1, j = 2. -/
theorem c6_activity_fields_witness :
    (create_demo_data 0 emptyStore).activities[3 * 1 + 2]? =
      some { id := 9 + 3 * 1 + 2, user := 1,
             activity_type := if 2 % 2 = 0 then "run" else "bike",
             duration := 20 + 10 * 1 + 5 * 2,
             calories_burned := 150 + 30 * 1 + 20 * 2,
             date := 0 - (2 * 1 + 2 : Nat) } :=
  c6_activity_fields 0 1 2 (by norm_num) (by norm_num)

/-- C2: if one of the deletion statements raises out of the
`transaction.atomic()` block (any of the five model deletes; the two
through-table bulk deletes are recovered in-place by the source's fallback
and so never escape), the whole call fails, the observable store is the
pre-call store — every performed deletion rolled back, all record counts
unchanged — and the error escapes carrying its original cause. -/
theorem c2_reset_atomic (s : Store) (f : FailSpec)
    (h : f.failActivity = true ∨ f.failWorkout = true ∨ f.failLeaderboard = true ∨
         f.failTeam = true ∨ f.failUser = true) :
    reset_data f s = Except.error f.cause ∧ storeAfterReset f s = s := by
  obtain ⟨fA, fTW, fW, fL, fTT, fT, fU, c⟩ := f
  rcases h with h | h | h | h | h <;> simp only at h <;> subst h
  · exact ⟨rfl, rfl⟩
  · cases fA <;> cases fTW <;> exact ⟨rfl, rfl⟩
  · cases fA <;> cases fTW <;> cases fW <;> exact ⟨rfl, rfl⟩
  · cases fA <;> cases fTW <;> cases fW <;> cases fL <;> cases fTT <;>
      exact ⟨rfl, rfl⟩
  · cases fA <;> cases fTW <;> cases fW <;> cases fL <;> cases fTT <;> cases fT <;>
      exact ⟨rfl, rfl⟩

/-- Witness for C2: a forced failure of the Team delete on the populated
store rolls everything back and surfaces the cause. -/
theorem c2_reset_atomic_witness :
    reset_data { noFail with failTeam := true, cause := "boom" }
        (create_demo_data 0 emptyStore) = Except.error "boom" ∧
    storeAfterReset { noFail with failTeam := true, cause := "boom" }
        (create_demo_data 0 emptyStore) = create_demo_data 0 emptyStore :=
  c2_reset_atomic (create_demo_data 0 emptyStore) _
    (Or.inr (Or.inr (Or.inr (Or.inl rfl))))

/-- C3: `reset_data` performs its deletions in the order Activities →
Workout↔Account links → Workouts → Leaderboard entries → Team↔Account
links → Teams → Accounts, and every intermediate state of the sequence is
free of dangling references when the starting store is. -/
theorem c3_reset_order_safe (s : Store) (h : noDangling s) :
    resetAttempt noFail s = Except.ok (resetUpTo s 7) ∧
    ∀ n, n ≤ 7 → noDangling (resetUpTo s n) := by
  obtain ⟨h1, h2, h3, h4⟩ := h
  refine ⟨rfl, ?_⟩
  intro n hn
  interval_cases n
  · exact ⟨h1, h2, h3, h4⟩
  · exact ⟨h1, h2, fun a ha => absurd ha (List.not_mem_nil a), h4⟩
  · exact ⟨h1, fun l hl => absurd hl (List.not_mem_nil l),
           fun a ha => absurd ha (List.not_mem_nil a), h4⟩
  · exact ⟨h1, fun l hl => absurd hl (List.not_mem_nil l),
           fun a ha => absurd ha (List.not_mem_nil a), h4⟩
  · exact ⟨h1, fun l hl => absurd hl (List.not_mem_nil l),
           fun a ha => absurd ha (List.not_mem_nil a),
           fun lb hlb => absurd hlb (List.not_mem_nil lb)⟩
  · exact ⟨fun l hl => absurd hl (List.not_mem_nil l),
           fun l hl => absurd hl (List.not_mem_nil l),
           fun a ha => absurd ha (List.not_mem_nil a),
           fun lb hlb => absurd hlb (List.not_mem_nil lb)⟩
  · exact ⟨fun l hl => absurd hl (List.not_mem_nil l),
           fun l hl => absurd hl (List.not_mem_nil l),
           fun a ha => absurd ha (List.not_mem_nil a),
           fun lb hlb => absurd hlb (List.not_mem_nil lb)⟩
  · exact ⟨fun l hl => absurd hl (List.not_mem_nil l),
           fun l hl => absurd hl (List.not_mem_nil l),
           fun a ha => absurd ha (List.not_mem_nil a),
           fun lb hlb => absurd hlb (List.not_mem_nil lb)⟩

/-- Witness for C3 on the populated demo store. -/
theorem c3_reset_order_safe_witness :
    resetAttempt noFail (create_demo_data 0 emptyStore) =
      Except.ok (resetUpTo (create_demo_data 0 emptyStore) 7) ∧
    ∀ n, n ≤ 7 → noDangling (resetUpTo (create_demo_data 0 emptyStore) n) :=
  c3_reset_order_safe (create_demo_data 0 emptyStore) (by decide)

/-- C4: a successful `reset_data` (the code's path, no injected failures)
leaves all five record kinds empty and no many-to-many link row behind,
whatever the starting store. -/
theorem c4_reset_complete (s : Store) :
    ∃ s2, reset_data noFail s = Except.ok s2 ∧
      s2.users = [] ∧ s2.teams = [] ∧ s2.workouts = [] ∧
      s2.activities = [] ∧ s2.leaderboards = [] ∧
      s2.teamLinks = [] ∧ s2.workoutLinks = [] :=
  ⟨_, rfl, rfl, rfl, rfl, rfl, rfl, rfl, rfl⟩

/-- C8: with Accounts present and no force flag, both entry points skip
`populate()`, succeed, and return the store untouched. -/
theorem c8_skip_without_force (s : Store) (f : FailSpec) (now : Int)
    (h : s.users ≠ []) :
    handle false f now s = Except.ok s ∧
    OctofitScript.main false f now s = Except.ok s := by
  cases hu : s.users with
  | nil => exact absurd hu h
  | cons a l => exact ⟨by simp [handle, hu], by simp [OctofitScript.main, hu]⟩

/-- Witness for C8 on the populated demo store. -/
theorem c8_skip_without_force_witness :
    handle false noFail 5 (create_demo_data 0 emptyStore) =
      Except.ok (create_demo_data 0 emptyStore) ∧
    OctofitScript.main false noFail 5 (create_demo_data 0 emptyStore) =
      Except.ok (create_demo_data 0 emptyStore) :=
  c8_skip_without_force (create_demo_data 0 emptyStore) noFail 5 (by decide)

/-- C9: the management command (`Command.handle`) and the standalone
script (`main`) run the same reset/populate logic: on every starting
store, force flag, failure injection and clock value they produce the
same outcome and the same final store. -/
theorem c9_entry_points_equivalent (force : Bool) (f : FailSpec) (now : Int)
    (s : Store) :
    OctofitScript.main force f now s = handle force f now s := rfl

/-! ## Idempotence of reset-then-populate (C7) -/

theorem beq_add_add (n a b : Nat) : (n + a == n + b) = (a == b) := by
  by_cases h : a = b
  · subst h; simp
  · rw [beq_eq_false_iff_ne.2 (by omega : n + a ≠ n + b), beq_eq_false_iff_ne.2 h]

theorem beq_self_add (n b : Nat) : (n == n + b) = (0 == b) := by
  by_cases h : b = 0
  · subst h; simp
  · rw [beq_eq_false_iff_ne.2 (by omega : n ≠ n + b),
        beq_eq_false_iff_ne.2 (by omega : (0 : Nat) ≠ b)]

theorem beq_add_self (n a : Nat) : (n + a == n) = (a == 0) := by
  by_cases h : a = 0
  · subst h; simp
  · rw [beq_eq_false_iff_ne.2 (by omega : n + a ≠ n),
        beq_eq_false_iff_ne.2 h]

/-- Populating an emptied store gives the same counts and the same
Leaderboard totals whatever the counter and the clock say. -/
theorem populate_emptied (n : Nat) (now : Int) :
    counts (create_demo_data now (emptiedStore n)) = (4, 2, 3, 12, 2, 4, 8) ∧
    lbTotals (create_demo_data now (emptiedStore n)) = [1110, 1470] := by
  constructor
  · rfl
  · simp [lbTotals, create_demo_data, emptiedStore, codePoints, memberIds,
          userCalories, List.range_succ, beq_add_add, beq_self_add, beq_add_self]

/-- C7: running `reset()` then `populate()` twice in a row yields the same
record counts and the same Leaderboard totals after the first pass as
after the second, from any starting store and clock values. -/
theorem c7_force_idempotent (s : Store) (now1 now2 : Int) :
    counts (forcePass now2 (forcePass now1 s)) = counts (forcePass now1 s) ∧
    lbTotals (forcePass now2 (forcePass now1 s)) = lbTotals (forcePass now1 s) := by
  have h1 := populate_emptied s.nextId now1
  have h2 := populate_emptied (forcePass now1 s).nextId now2
  exact ⟨h2.1.trans h1.1.symm, h2.2.trans h1.2.symm⟩

/-! ## Pre-existing teams (C10) -/

/-- Splitting the head member off the per-activity sum: when `m` is not
among `rest`, the activities of members `m :: rest` are the activities of
`m` plus the activities of `rest`. -/
theorem filter_mem_cons_sum (m : Nat) (rest : List Nat) (hm : m ∉ rest)
    (acts : List Activity) :
    ((acts.filter (fun a => decide (a.user ∈ m :: rest))).map
        (fun a => a.calories_burned)).sum =
      userCalories acts m +
        ((acts.filter (fun a => decide (a.user ∈ rest))).map
          (fun a => a.calories_burned)).sum := by
  induction acts with
  | nil => simp [userCalories]
  | cons a acts ih =>
      by_cases h : a.user = m
      · have hrest : a.user ∉ rest := by rw [h]; exact hm
        simp only [userCalories, List.filter_cons, List.mem_cons] at ih ⊢
        simp [h, hrest, hm] at ih ⊢
        omega
      · by_cases hc : a.user ∈ rest
        · simp only [userCalories, List.filter_cons, List.mem_cons] at ih ⊢
          simp [h, hc] at ih ⊢
          omega
        · simp only [userCalories, List.filter_cons, List.mem_cons] at ih ⊢
          simp [h, hc] at ih ⊢
          omega

/-- The code's member-by-member aggregation equals the spec's sum over
the activities owned by any member, whenever no member id repeats. -/
theorem sum_userCalories_eq (acts : List Activity) :
    ∀ ms : List Nat, ms.Nodup →
      (ms.map (userCalories acts)).sum =
        ((acts.filter (fun a => decide (a.user ∈ ms))).map
          (fun a => a.calories_burned)).sum := by
  intro ms
  induction ms with
  | nil => intro _; simp
  | cons m rest ih =>
      intro hnd
      rw [List.nodup_cons] at hnd
      rw [List.map_cons, List.sum_cons, ih hnd.2,
          filter_mem_cons_sum m rest hnd.1 acts]

/-- Lemma: `codePoints` agrees with `specPoints` on teams without duplicate
membership link rows. -/
theorem codePoints_eq_specPoints (links : List Link) (acts : List Activity)
    (tid : Nat) (hnd : (memberIds links tid).Nodup) :
    codePoints links acts tid = specPoints links acts tid := by
  rw [codePoints_eq_sum, specPoints]
  exact sum_userCalories_eq acts (memberIds links tid) hnd

/-- C10: the leaderboard phase iterates over every Team in the store, so
running `populate()` on a store that already holds Teams creates an entry
for each pre-existing Team too, scored over that Team's current members'
Activities.  The store is assumed consistent with the auto-increment
contract (all stored ids below `nextId`) and free of duplicate membership
link rows. -/
theorem c10_preexisting_teams_scored (s : Store) (now : Int)
    (hteams : ∀ t ∈ s.teams, t.id < s.nextId)
    (hnd : ∀ t ∈ s.teams, (memberIds s.teamLinks t.id).Nodup) :
    ∀ t ∈ s.teams,
      ({ team := t.id,
         total_points := specPoints (create_demo_data now s).teamLinks
           (create_demo_data now s).activities t.id } : LBEntry) ∈
        (create_demo_data now s).leaderboards.drop s.leaderboards.length := by
  intro t ht
  have htid : t.id < s.nextId := hteams t ht
  have hmem : memberIds (create_demo_data now s).teamLinks t.id =
      memberIds s.teamLinks t.id := by
    have h4 : (s.nextId + 4 == t.id) = false := beq_eq_false_iff_ne.2 (by omega)
    have h5 : (s.nextId + 5 == t.id) = false := beq_eq_false_iff_ne.2 (by omega)
    simp [create_demo_data, memberIds, List.filter_append, h4, h5]
  have hnodup : (memberIds (create_demo_data now s).teamLinks t.id).Nodup := by
    rw [hmem]; exact hnd t ht
  have hdrop : (create_demo_data now s).leaderboards.drop s.leaderboards.length =
      ((create_demo_data now s).teams.map (fun tt : Team =>
        ({ team := tt.id,
           total_points := codePoints (create_demo_data now s).teamLinks
             (create_demo_data now s).activities tt.id } : LBEntry))) := by
    rw [show (create_demo_data now s).leaderboards = s.leaderboards ++
          ((create_demo_data now s).teams.map (fun tt : Team =>
            ({ team := tt.id,
               total_points := codePoints (create_demo_data now s).teamLinks
                 (create_demo_data now s).activities tt.id } : LBEntry))) from rfl,
        List.drop_left]
  rw [hdrop, ← codePoints_eq_specPoints _ _ _ hnodup]
  have htfull : t ∈ (create_demo_data now s).teams :=
    List.mem_append_left _ ht
  exact List.mem_map_of_mem _ htfull

/-- Witness for C10: a store holding one old team with one member who owns
one 50-calorie activity; `populate()` adds a Leaderboard entry scoring
that team at 50. -/
theorem c10_preexisting_teams_scored_witness :
    ({ team := 1, total_points := 50 } : LBEntry) ∈
      ((create_demo_data 0
          { users := [⟨0, "u", "e", "f", "l"⟩], teams := [⟨1, "Old"⟩]
            teamLinks := [(1, 0)], workouts := [], workoutLinks := []
            activities := [⟨2, 0, "walk", 10, 50, 0⟩], leaderboards := []
            nextId := 3 }).leaderboards.drop 0) := by
  have h := c10_preexisting_teams_scored
    { users := [⟨0, "u", "e", "f", "l"⟩], teams := [⟨1, "Old"⟩]
      teamLinks := [(1, 0)], workouts := [], workoutLinks := []
      activities := [⟨2, 0, "walk", 10, 50, 0⟩], leaderboards := []
      nextId := 3 } 0 (by decide) (by decide) ⟨1, "Old"⟩ (by decide)
  simpa using h

end Octofit
